import Mathlib

/-!
Verification of the provider-agnostic LLM client in the `cookbook` repository.

The development shallowly embeds the core components described by the spec:

* `shared/http_client.py` — `HttpClient.post`, the retry/backoff transport;
* `src/shared/errors.py` — the error taxonomy (`LLMError` and its two
  subclasses `LLMRateLimit`, `LLMAuthError`);
* `src/shared/llm/adapters.py` — the OpenAI, Anthropic and Ollama adapters;
* `src/shared/llm/config.py` and `shared/core/constants.py` — `LLMConfig.from_env`;
* `shared/llm/client.py` — the `LLM` facade (`chat`, `extract_tags`).

Python dicts parsed from JSON are modelled by `JVal`; network effects are
modelled by passing the per-attempt outcome (for the transport) or the parsed
response body (for adapters) as an explicit argument.
-/

namespace Cookbook

/-- A parsed JSON value, the shape of everything `resp.json()` can return and
of every request payload fragment the adapters build.  Python `None` is
`null`; Python numbers are modelled by `Rat` (Python ints and the floats the
code manipulates are exact). Objects are association lists; Python dicts from
JSON have unique keys, and lookup takes the first match. -/
inductive JVal where
  | null : JVal
  | b : Bool → JVal
  | num : Rat → JVal
  | s : String → JVal
  | arr : List JVal → JVal
  | obj : List (String × JVal) → JVal

/-- `d.get(key)` / `d[key]` on a Python dict modelled as an association list:
`none` corresponds to the key being absent (`.get` returns `None`,
`d[key]` raises `KeyError`). -/
def pyGet (key : String) : List (String × JVal) → Option JVal
  | [] => none
  | (k, v) :: rest => if k = key then some v else pyGet key rest

/-- Python truthiness (`bool(v)`) of a JSON value, used by the code's
`cfg.max_tokens or 1024`, `if system_prompt:` and `... or ""` idioms. -/
def pyTruthy : JVal → Bool
  | .null => false
  | .b bv => bv
  | .num q => !(q == 0)
  | .s sv => !(sv == "")
  | .arr l => !l.isEmpty
  | .obj f => !f.isEmpty

/-!
## Error taxonomy — `src/shared/errors.py`

```python
class LLMError(RuntimeError): ...
class LLMRateLimit(LLMError): ...
class LLMAuthError(LLMError): ...
```

`LLMErr` has one constructor per *concrete* class; crucially, a Python
`except ... LLMError` clause catches all three constructors, because
`LLMRateLimit` and `LLMAuthError` are subclasses of `LLMError`.
-/

/-- The three error kinds.  `generic` is a plain `LLMError`; `rateLimit` and
`authError` are its subclasses `LLMRateLimit` / `LLMAuthError`.  The payload
is the exception message (`str(e)`). -/
inductive LLMErr where
  | rateLimit : String → LLMErr
  | authError : String → LLMErr
  | generic : String → LLMErr

/-- An exception raised inside the `try` block of `HttpClient.post`: either a
`requests.RequestException` (network failure, `raise_for_status` HTTPError,
JSON decode failure) or one of the `LLMError` classes.  The `except
(requests.RequestException, LLMError)` clause of the retry loop catches every
value of this type, since `LLMRateLimit` and `LLMAuthError` subclass
`LLMError`. -/
inductive PyExc where
  | requestException : String → PyExc
  | llmError : LLMErr → PyExc

/-- `str(e)` for an exception: our error classes carry their message. -/
def pyExcStr : PyExc → String
  | .requestException m => m
  | .llmError (.rateLimit m) => m
  | .llmError (.authError m) => m
  | .llmError (.generic m) => m

/-!
## Transport — `shared/http_client.py`, `HttpClient.post`
-/

/-- What one `self.session.post(...)` attempt produces: either an HTTP
response (status code, body text, and the result of `resp.json()` — `none`
when the body is not valid JSON, which `requests` raises as a
`JSONDecodeError ⊆ RequestException`), or a network-level
`requests.RequestException`. -/
inductive AttemptResult where
  | response : Nat → String → Option JVal → AttemptResult
  | exception : String → AttemptResult

/-- `resp.text[:200]` — error body text is truncated to 200 characters. -/
def take200 (s : String) : String := s.take 200

/-- The body of the `try` block for a single attempt, classifying the HTTP
status exactly in the source's order:

```python
resp = self.session.post(url, headers=headers, json=json, timeout=self.timeout_s)
if resp.status_code in (429, 408):
    raise LLMRateLimit(f"Rate limited or timeout: {resp.status_code} {resp.text[:200]}")
if 500 <= resp.status_code < 600:
    raise LLMError(f"Server error {resp.status_code}: {resp.text[:200]}")
if resp.status_code in (401, 403):
    raise LLMAuthError(f"Auth failed: {resp.text[:200]}")
resp.raise_for_status()
return resp.json()
```

`raise_for_status` raises `requests.HTTPError` for any remaining status in
400–599 (its message detail is elided here); a JSON decode failure of a
non-error body raises a `RequestException` as well. -/
def attemptOnce : AttemptResult → Except PyExc JVal
  | .exception msg => .error (.requestException msg)
  | .response status text body =>
    if status = 429 ∨ status = 408 then
      .error (.llmError (.rateLimit
        ("Rate limited or timeout: " ++ toString status ++ " " ++ take200 text)))
    else if 500 ≤ status ∧ status < 600 then
      .error (.llmError (.generic
        ("Server error " ++ toString status ++ ": " ++ take200 text)))
    else if status = 401 ∨ status = 403 then
      .error (.llmError (.authError ("Auth failed: " ++ take200 text)))
    else if 400 ≤ status ∧ status < 600 then
      .error (.requestException ("HTTPError: " ++ toString status))
    else
      match body with
      | some j => .ok j
      | none => .error (.requestException "JSONDecodeError")

/-- Observable outcome of `HttpClient.post`: the returned body or raised
error, the number of attempts performed, and the sequence of `time.sleep`
delays (in seconds, exact rationals). -/
structure PostTrace where
  result : Except LLMErr JVal
  attempts : Nat
  sleeps : List Rat

/-- The message of the error raised when the loop exhausts its attempts:
`f"POST {url} failed after {self.max_retries} attempts: {last_err}"`. -/
def failMsg (url : String) (maxRetries : Nat) (e : PyExc) : String :=
  "POST " ++ url ++ " failed after " ++ toString maxRetries ++ " attempts: " ++ pyExcStr e

/-- The retry loop of `HttpClient.post`:

```python
last_err = None
delay = 1.0
for attempt in range(1, self.max_retries + 1):
    try:
        ...  # attemptOnce
    except (requests.RequestException, LLMError) as e:
        last_err = e
        if attempt == self.max_retries:
            break
        time.sleep(delay)
        delay = min(delay * 2.0, 8.0)
raise LLMError(f"POST {url} failed after {self.max_retries} attempts: {last_err}")
```

Every exception an attempt can raise is caught by the `except` clause —
including `LLMRateLimit` and `LLMAuthError`, which subclass `LLMError` — so
every failing attempt takes the retry path.  `fuel` counts the remaining loop
iterations including the current one (`fuel = maxRetries - attempt + 1`); the
`fuel = 0` case corresponds to the loop body never running (`max_retries = 0`),
where the trailing `assert last_err is not None` fails. -/
def postAux (url : String) (f : Nat → AttemptResult) (maxRetries : Nat) :
    Nat → Nat → Rat → List Rat → PostTrace
  | 0, attempt, _, sleeps =>
    ⟨.error (.generic "AssertionError: last_err is not None"), attempt, sleeps⟩
  | fuel + 1, attempt, delay, sleeps =>
    match attemptOnce (f attempt) with
    | .ok j => ⟨.ok j, attempt, sleeps⟩
    | .error e =>
      match fuel with
      | 0 => ⟨.error (.generic (failMsg url maxRetries e)), attempt, sleeps⟩
      | _ + 1 => postAux url f maxRetries fuel (attempt + 1) (min (delay * 2) 8) (sleeps ++ [delay])

/-- `HttpClient.post(url, ...)` with `max_retries = maxRetries`;
`f n` is the outcome of the `n`-th `session.post` call (1-indexed). -/
def post (maxRetries : Nat) (url : String) (f : Nat → AttemptResult) : PostTrace :=
  match maxRetries with
  | 0 => ⟨.error (.generic "AssertionError: last_err is not None"), 0, []⟩
  | m + 1 => postAux url f (m + 1) (m + 1) 1 1 []

/-- The delay sequence claimed by the spec for `n` sleeps:
`1, 2, 4, 8, 8, ...` — doubling, capped at 8.0 seconds. -/
def specDelays (n : Nat) : List Rat :=
  (List.range n).map (fun i => min ((2 : Rat) ^ i) 8)

/-- The delays actually slept by the loop starting from current delay
`delay`, for `n` further sleeps. -/
def delaysFrom (delay : Rat) : Nat → List Rat
  | 0 => []
  | n + 1 => delay :: delaysFrom (min (delay * 2) 8) n

lemma attemptOnce_server_error (status : Nat) (text : String) (body : Option JVal)
    (h5 : 500 ≤ status) (h6 : status < 600) :
    attemptOnce (.response status text body) =
      .error (.llmError (.generic
        ("Server error " ++ toString status ++ ": " ++ take200 text))) := by
  simp only [attemptOnce]
  rw [if_neg (by omega), if_pos ⟨h5, h6⟩]

/-- When every attempt raises the same caught exception, the loop runs out of
fuel, having slept once per non-final iteration. -/
lemma postAux_allFail (url : String) (f : Nat → AttemptResult) (maxR : Nat) (e : PyExc)
    (hf : ∀ i, attemptOnce (f i) = .error e) :
    ∀ (rem attempt : Nat) (delay : Rat) (sleeps : List Rat),
      postAux url f maxR (rem + 1) attempt delay sleeps =
        ⟨.error (.generic (failMsg url maxR e)), attempt + rem,
          sleeps ++ delaysFrom delay rem⟩ := by
  intro rem
  induction rem with
  | zero =>
    intro attempt delay sleeps
    simp [postAux, hf, delaysFrom]
  | succ n ih =>
    intro attempt delay sleeps
    have step : postAux url f maxR (n + 1 + 1) attempt delay sleeps =
        postAux url f maxR (n + 1) (attempt + 1) (min (delay * 2) 8) (sleeps ++ [delay]) := by
      rw [postAux, hf attempt]
    rw [step, ih (attempt + 1) (min (delay * 2) 8) (sleeps ++ [delay])]
    simp [delaysFrom, List.append_assoc]
    omega

lemma min_double_cap (a : Rat) : min (min a 8 * 2) 8 = min (a * 2) 8 := by
  rcases le_total a 8 with h | h
  · rw [min_eq_left h]
  · rw [min_eq_right h]
    have h2 : (8 : Rat) ≤ a * 2 := by linarith
    rw [min_eq_right h2]
    norm_num

lemma delaysFrom_spec : ∀ (n k : Nat),
    delaysFrom (min ((2 : Rat) ^ k) 8) n =
      (List.range n).map (fun i => min ((2 : Rat) ^ (k + i)) 8) := by
  intro n
  induction n with
  | zero => intro k; simp [delaysFrom]
  | succ m ih =>
    intro k
    rw [delaysFrom, min_double_cap, ← pow_succ, ih (k + 1), List.range_succ_eq_map,
      List.map_cons, List.map_map]
    congr 1
    refine List.map_congr_left fun a _ => ?_
    have hka : k + 1 + a = k + (a + 1) := by omega
    simp [Function.comp_def, hka, Nat.succ_eq_add_one]

lemma delaysFrom_one (n : Nat) : delaysFrom 1 n = specDelays n := by
  have h : (1 : Rat) = min ((2 : Rat) ^ 0) 8 := by norm_num
  rw [h, delaysFrom_spec n 0, specDelays]
  simp

/-- C1 — the claim says a 401/403 response makes `Transport.post` fail
immediately with `LLMAuthError` after exactly one attempt and zero sleeps,
and a 429/408 response likewise with `LLMRateLimit`; the code does not do
this.  Because `LLMRateLimit` and `LLMAuthError` subclass `LLMError`, the
retry loop's `except (requests.RequestException, LLMError)` clause catches
them: a persistent 401 with `max_retries = 2` performs 2 attempts and 1
sleep and raises a plain generic `LLMError`, and even a single-attempt 429
ends as a generic `LLMError`, not `LLMRateLimit`.  This contradicts the
repository's own tests (`test_post_no_retry_on_auth_errors`,
`test_post_no_retry_on_rate_limit`, `test_post_rate_limit_error`). -/
theorem transport_auth_and_rate_limit_are_retried :
    post 2 "https://api.example.com/test" (fun _ => .response 401 "Unauthorized" none) =
      ⟨.error (.generic
          "POST https://api.example.com/test failed after 2 attempts: Auth failed: Unauthorized"),
        2, [1]⟩ ∧
    post 1 "https://api.example.com/test" (fun _ => .response 429 "Rate limited" none) =
      ⟨.error (.generic
          "POST https://api.example.com/test failed after 1 attempts: Rate limited or timeout: 429 Rate limited"),
        1, []⟩ := by
  constructor <;> · set_option maxRecDepth 4000 in rfl

/-- C2 — for every `max_retries = N ≥ 1` and a persistently failing 5xx
response, `post` performs exactly `N` attempts and `N - 1` sleeps with
delays `1, 2, 4, 8, 8, ...` (doubling, capped at 8), then fails with a
generic `LLMError` naming the URL and the `N` attempts. -/
theorem transport_transient_5xx_exhausts_retries
    (N status : Nat) (url text : String) (body : Option JVal)
    (hN : 1 ≤ N) (h5 : 500 ≤ status) (h6 : status < 600) :
    post N url (fun _ => .response status text body) =
      ⟨.error (.generic
          ("POST " ++ url ++ " failed after " ++ toString N ++ " attempts: " ++
            ("Server error " ++ toString status ++ ": " ++ take200 text))),
        N, specDelays (N - 1)⟩ := by
  obtain ⟨M, rfl⟩ : ∃ M, N = M + 1 := ⟨N - 1, by omega⟩
  have hf : ∀ i, attemptOnce ((fun _ : Nat => AttemptResult.response status text body) i) =
      .error (.llmError (.generic
        ("Server error " ++ toString status ++ ": " ++ take200 text))) :=
    fun _ => attemptOnce_server_error status text body h5 h6
  rw [post, postAux_allFail url (fun _ : Nat => AttemptResult.response status text body)
    (M + 1) _ hf M 1 1 [], delaysFrom_one]
  simp [failMsg, pyExcStr, Nat.add_comm]

/-- Witness for C2 at `N = 3`, status 503: three attempts, sleeps `[1, 2]`. -/
theorem transport_transient_5xx_exhausts_retries_witness :
    post 3 "https://api.example.com/test" (fun _ => .response 503 "unavailable" none) =
      ⟨.error (.generic
          "POST https://api.example.com/test failed after 3 attempts: Server error 503: unavailable"),
        3, [1, 2]⟩ := by
  have h := transport_transient_5xx_exhausts_retries 3 503 "https://api.example.com/test"
    "unavailable" none (by omega) (by omega) (by omega)
  rw [h]
  set_option maxRecDepth 4000 in rfl

/-- C9 — a 2xx response whose body parses as structured JSON is returned
unmodified after a single attempt, with no retries and no sleeps. -/
theorem transport_2xx_returns_body_unmodified
    (N status : Nat) (url text : String) (j : JVal)
    (hN : 1 ≤ N) (h2 : 200 ≤ status) (h3 : status < 300) :
    post N url (fun _ => .response status text (some j)) = ⟨.ok j, 1, []⟩ := by
  obtain ⟨M, rfl⟩ : ∃ M, N = M + 1 := ⟨N - 1, by omega⟩
  have hA : attemptOnce (.response status text (some j)) = .ok j := by
    simp only [attemptOnce]
    rw [if_neg (by omega), if_neg (by omega), if_neg (by omega), if_neg (by omega)]
  rw [post]
  simp [postAux, hA]

/-- Witness for C9: a 200 response with body `{"k": "v"}` and
`max_retries = 3` is returned as-is on the first attempt. -/
theorem transport_2xx_returns_body_unmodified_witness :
    post 3 "u" (fun _ => .response 200 "ok" (some (.obj [("k", .s "v")]))) =
      ⟨.ok (.obj [("k", .s "v")]), 1, []⟩ :=
  transport_2xx_returns_body_unmodified 3 200 "u" "ok" (.obj [("k", .s "v")])
    (by omega) (by omega) (by omega)

/-!
## Data model — `shared/core/types.py`, `shared/core/constants.py`
-/

/-- `ChatMessage`: `{"role": ..., "content": ...}`.  The type annotation in
the source restricts `role` to `system | user | assistant`, but the dict
carries an arbitrary string at runtime and the Anthropic adapter explicitly
coerces unknown roles, so `role` is modelled as `String`. -/
structure ChatMessage where
  role : String
  content : String

def DEFAULT_PROVIDER : String := "ollama"

def DEFAULT_MODEL : String := "llama3"

/-- `DEFAULT_TEMPERATURE = 0.2` (an exact value, modelled as a rational). -/
def DEFAULT_TEMPERATURE : Rat := 2 / 10

def DEFAULT_TIMEOUT_S : Int := 60

def DEFAULT_MAX_RETRIES : Int := 3

def OPENAI_BASE_URL : String := "https://api.openai.com"

def ANTHROPIC_BASE_URL : String := "https://api.anthropic.com"

def ANTHROPIC_VERSION : String := "2023-06-01"

def OLLAMA_BASE_URL : String := "http://localhost:11434"

def MAX_CONTENT_LENGTH_FOR_AI : Nat := 2000

def MAX_CONTENT_LENGTH_FOR_TAGS : Nat := 1000

/-!
## Configuration — `src/shared/llm/config.py`
-/

/-- The frozen `LLMConfig` dataclass, field for field. -/
structure LLMConfig where
  provider : String
  model : String
  temperature : Rat
  max_tokens : Option Int
  timeout_s : Int
  max_retries : Int
  openai_api_key : Option String
  openai_base_url : String
  anthropic_api_key : Option String
  anthropic_api_url : String
  anthropic_version : String
  ollama_base_url : String

/-- The process environment restricted to the variables `from_env` reads;
`none` models an unset variable (`os.getenv` returning `None`). -/
structure Env where
  LLM_PROVIDER : Option String
  LLM_MODEL : Option String
  LLM_TEMPERATURE : Option String
  LLM_MAX_TOKENS : Option String
  LLM_TIMEOUT_S : Option String
  LLM_MAX_RETRIES : Option String
  OPENAI_API_KEY : Option String
  OPENAI_BASE_URL : Option String
  ANTHROPIC_API_KEY : Option String
  ANTHROPIC_API_URL : Option String
  ANTHROPIC_VERSION : Option String
  OLLAMA_BASE_URL : Option String

/-- The numeric value of a non-empty, all-digit character sequence
(`none` otherwise). -/
def digitsValAux : List Char → Nat → Option Nat
  | [], acc => some acc
  | c :: rest, acc =>
    if c.isDigit then digitsValAux rest (acc * 10 + (c.toNat - 48)) else none

def digitsVal (cs : List Char) : Option Nat :=
  match cs with
  | [] => none
  | _ => digitsValAux cs 0

/-- Python `int(s)` on the decimal-literal fragment the config uses:
optional sign then digits.  (Surrounding whitespace, underscores and other
Python extensions are outside the inputs this development evaluates.) -/
def pyIntChars : List Char → Option Int
  | '-' :: rest => (digitsVal rest).map (fun n => -(n : Int))
  | '+' :: rest => (digitsVal rest).map (fun n => (n : Int))
  | cs => (digitsVal cs).map (fun n => (n : Int))

def pyInt (str : String) : Option Int := pyIntChars str.data

/-- Split a character list at every occurrence of `sep` (used to separate
the integer and fractional parts at the dots). -/
def splitOnChar (sep : Char) : List Char → List (List Char)
  | [] => [[]]
  | c :: rest =>
    if c = sep then [] :: splitOnChar sep rest
    else
      match splitOnChar sep rest with
      | h :: t => (c :: h) :: t
      | [] => [[c]]

/-- Magnitude of a decimal float literal: `digits`, `digits.digits`,
`.digits` or `digits.`. -/
def pyFloatMagChars (cs : List Char) : Option Rat :=
  match splitOnChar '.' cs with
  | [ip] => (digitsVal ip).map (fun n => (n : Rat))
  | [ip, fp] =>
    if ip = [] ∧ fp = [] then none
    else
      match (if ip = [] then some 0 else digitsVal ip),
            (if fp = [] then some 0 else digitsVal fp) with
      | some i, some frac => some ((i : Rat) + (frac : Rat) / ((10 : Rat) ^ fp.length))
      | _, _ => none
  | _ => none

def pyFloatChars : List Char → Option Rat
  | '-' :: rest => (pyFloatMagChars rest).map (fun q => -q)
  | '+' :: rest => pyFloatMagChars rest
  | cs => pyFloatMagChars cs

/-- Python `float(s)` on the decimal-literal fragment the config uses
(exact rational value). -/
def pyFloat (str : String) : Option Rat := pyFloatChars str.data

/-- Python `str.lower()` (ASCII case folding, structural so it computes). -/
def pyLower (s : String) : String := ⟨s.data.map Char.toLower⟩

/-- `int(os.getenv("LLM_MAX_TOKENS")) if os.getenv("LLM_MAX_TOKENS") else None`:
an unset or empty variable (falsy) yields `None`; otherwise the value must
parse as an int.  `some none` = Python `None`, `none` = `ValueError`. -/
def pyMaxTokens : Option String → Option (Option Int)
  | none => some none
  | some str => if str = "" then some none else (pyInt str).map some

/-- `LLMConfig.from_env`:

```python
provider = os.getenv("LLM_PROVIDER", DEFAULT_PROVIDER).lower()
if provider not in ("openai", "anthropic", "ollama"):
    raise ValueError(f"Unsupported provider: {provider}")
return LLMConfig(provider=provider, model=os.getenv("LLM_MODEL", DEFAULT_MODEL), ...)
```

A failing `float()`/`int()` conversion raises `ValueError`, modelled by the
`.error "ValueError"` branch. -/
def LLMConfig.from_env (e : Env) : Except String LLMConfig :=
  let provider := pyLower (e.LLM_PROVIDER.getD DEFAULT_PROVIDER)
  if provider = "openai" ∨ provider = "anthropic" ∨ provider = "ollama" then
    match pyFloat (e.LLM_TEMPERATURE.getD "0.2"), pyMaxTokens e.LLM_MAX_TOKENS,
          pyInt (e.LLM_TIMEOUT_S.getD "60"), pyInt (e.LLM_MAX_RETRIES.getD "3") with
    | some temperature, some max_tokens, some timeout_s, some max_retries =>
      .ok { provider := provider
            model := e.LLM_MODEL.getD DEFAULT_MODEL
            temperature := temperature
            max_tokens := max_tokens
            timeout_s := timeout_s
            max_retries := max_retries
            openai_api_key := e.OPENAI_API_KEY
            openai_base_url := e.OPENAI_BASE_URL.getD OPENAI_BASE_URL
            anthropic_api_key := e.ANTHROPIC_API_KEY
            anthropic_api_url := e.ANTHROPIC_API_URL.getD ANTHROPIC_BASE_URL
            anthropic_version := e.ANTHROPIC_VERSION.getD ANTHROPIC_VERSION
            ollama_base_url := e.OLLAMA_BASE_URL.getD OLLAMA_BASE_URL }
    | _, _, _, _ => .error "ValueError"
  else .error ("Unsupported provider: " ++ provider)

/-!
## Adapters — `src/shared/llm/adapters.py`

Each adapter's `chat(cfg, messages, client)` builds a payload, calls
`client.post`, and parses the response.  The network call is abstracted by
passing the parsed response body (`raw`, the value `client.post` returned)
as an explicit argument; the payload-building half of the Anthropic adapter
is additionally exposed as `anthropicPayload` so the outgoing request shape
can be inspected.
-/

/-- Python `str.strip()`: drop leading and trailing whitespace.  (The
core `String.trim` is not used because it does not reduce definitionally;
this structural version computes and agrees with `strip` on the ASCII
whitespace the code encounters.) -/
def pyStrip (s : String) : String :=
  ⟨((s.data.dropWhile Char.isWhitespace).reverse.dropWhile Char.isWhitespace).reverse⟩

/-- Python `str.split(sep)` for a single-character separator: split at every
occurrence, keeping empty pieces (so `"".split(c) == [""]`). -/
def pySplitCharAux (sep : Char) : List Char → List Char → List String
  | [], acc => [⟨acc.reverse⟩]
  | c :: rest, acc =>
    if c = sep then ⟨acc.reverse⟩ :: pySplitCharAux sep rest []
    else pySplitCharAux sep rest (c :: acc)

def pySplitChar (sep : Char) (s : String) : List String :=
  pySplitCharAux sep s.data []

/-- The `LLMResult` dataclass.  The Python annotation declares `text: str`,
but nothing enforces it — the adapters store whatever value falls out of the
response, so `text` is modelled as `JVal`. -/
structure LLMResult where
  text : JVal
  raw : JVal
  provider : String
  model : String
  usage : Option JVal

/-- `BaseAdapter.require(value, name)`: raises
`LLMAuthError(f"Missing {name}")` when the value is falsy (absent or the
empty string). -/
def require (value : Option String) (name : String) : Except LLMErr String :=
  match value with
  | none => .error (.authError ("Missing " ++ name))
  | some v => if v = "" then .error (.authError ("Missing " ++ name)) else .ok v

/-- Tail of `BaseAdapter.split_system_message`: the loop walks the list,
captures the content of the first system message (`system is None` check),
and appends everything else to `core` in order. -/
def splitSysAux : Option String → List ChatMessage → List ChatMessage →
    Option String × List ChatMessage
  | system, acc, [] => (system, acc.reverse)
  | system, acc, m :: rest =>
    if m.role = "system" ∧ system = none then splitSysAux (some m.content) acc rest
    else splitSysAux system (m :: acc) rest

/-- `BaseAdapter.split_system_message(messages)`. -/
def split_system_message (messages : List ChatMessage) :
    Option String × List ChatMessage :=
  splitSysAux none [] messages

/-- One element of the Anthropic `content` list the adapter builds:
`{"type": "text", "text": ...}`. -/
structure ContentBlockOut where
  type : String
  text : String

/-- One converted Anthropic message: `{"role": ..., "content": [block]}`. -/
structure AnthMsg where
  role : String
  content : List ContentBlockOut

/-- The message conversion inside `AnthropicAdapter.chat`:

```python
{"role": msg["role"] if msg["role"] in ("user", "assistant") else "user",
 "content": [{"type": "text", "text": msg["content"]}]}
``` -/
def toAnthropicMessage (m : ChatMessage) : AnthMsg :=
  { role := if m.role = "user" ∨ m.role = "assistant" then m.role else "user"
    content := [{ type := "text", text := m.content }] }

/-- The Anthropic request body.  `system : Option String` models the key
being present or absent in the payload dict. -/
structure AnthropicPayload where
  model : String
  max_tokens : Int
  temperature : Rat
  messages : List AnthMsg
  system : Option String

/-- The payload-construction half of `AnthropicAdapter.chat`:

```python
system_prompt, core_messages = self.split_system_message(messages)
payload = {"model": cfg.model, "max_tokens": cfg.max_tokens or 1024,
           "temperature": cfg.temperature, "messages": anthropic_messages}
if system_prompt:
    payload["system"] = system_prompt
```

Note both truthiness tests: `cfg.max_tokens or 1024` replaces `None` *and*
`0` by 1024, and `if system_prompt:` skips the `system` key when the prompt
is `None` *or* the empty string. -/
def anthropicPayload (cfg : LLMConfig) (messages : List ChatMessage) : AnthropicPayload :=
  let sp := split_system_message messages
  { model := cfg.model
    max_tokens :=
      match cfg.max_tokens with
      | some t => if t = 0 then 1024 else t
      | none => 1024
    temperature := cfg.temperature
    messages := sp.2.map toAnthropicMessage
    system :=
      match sp.1 with
      | some c => if c = "" then none else some c
      | none => none }

/-- The pieces `"".join(...)` would concatenate in the Anthropic response
parse:

```python
text = "".join(block.get("text", "")
               for block in blocks
               if isinstance(block, dict) and block.get("type") == "text").strip()
```

Non-dict blocks and blocks whose `type` is not the string `"text"` are
filtered out; a filtered-in block contributes its `text` field (default
`""`).  A non-string `text` value makes `"".join` raise `TypeError`
(modelled by `none`), which the adapter wraps as a generic error. -/
def textPieces : List JVal → Option (List String)
  | [] => some []
  | block :: rest =>
    match block with
    | .obj bf =>
      match pyGet "type" bf with
      | some (.s "text") =>
        match pyGet "text" bf with
        | none => (textPieces rest).map (fun ps => "" :: ps)
        | some (.s t) => (textPieces rest).map (fun ps => t :: ps)
        | some _ => none
      | _ => textPieces rest
    | _ => textPieces rest

/-- The response-parsing half of `AnthropicAdapter.chat` applied to the
parsed body `raw` returned by `client.post` (the `{e}` detail interpolated
into the parse-error message is elided). -/
def AnthropicAdapter.chat (cfg : LLMConfig) (messages : List ChatMessage)
    (raw : JVal) : Except LLMErr LLMResult :=
  match require cfg.anthropic_api_key "ANTHROPIC_API_KEY" with
  | .error e => .error e
  | .ok _ =>
    match raw with
    | .obj fields =>
      match pyGet "content" fields with
      | some (.arr blocks) =>
        match textPieces blocks with
        | some ps =>
          .ok { text := .s (pyStrip (String.join ps))
                raw := .obj fields
                provider := "anthropic"
                model := cfg.model
                usage := pyGet "usage" fields }
        | none => .error (.generic "Anthropic: unexpected response format")
      | some _ => .error (.generic "Anthropic: unexpected response format")
      | none => .error (.generic "Anthropic: unexpected response format")
    | _ => .error (.generic "anthropic: expected JSON object")

/-- `raw["choices"][0]["message"]["content"]` with every structural failure
(`KeyError`, `IndexError`, `TypeError`) collapsed to `none`, exactly the
exceptions the adapter catches. -/
def openaiExtract (fields : List (String × JVal)) : Option JVal :=
  match pyGet "choices" fields with
  | some (.arr (c0 :: _)) =>
    match c0 with
    | .obj cf =>
      match pyGet "message" cf with
      | some (.obj mf) => pyGet "content" mf
      | _ => none
    | _ => none
  | _ => none

/-- `OpenAIAdapter.chat` applied to the parsed body `raw` (payload
construction — full message list as-is plus optional `max_tokens` — does not
bear on any claim and is not duplicated here; parse-error message details
are elided). -/
def OpenAIAdapter.chat (cfg : LLMConfig) (messages : List ChatMessage)
    (raw : JVal) : Except LLMErr LLMResult :=
  match require cfg.openai_api_key "OPENAI_API_KEY" with
  | .error e => .error e
  | .ok _ =>
    match raw with
    | .obj fields =>
      match openaiExtract fields with
      | some v =>
        .ok { text := v
              raw := .obj fields
              provider := "openai"
              model := cfg.model
              usage := pyGet "usage" fields }
      | none => .error (.generic "OpenAI: unexpected response format")
    | _ => .error (.generic "openai: expected JSON object")

/-- `v or ""` — Python's short-circuit `or` against the empty string:
a falsy value (None, "", 0, False, empty containers) becomes `""`. -/
def pyOrEmptyStr (v : JVal) : JVal :=
  if pyTruthy v then v else .s ""

/-- `OllamaAdapter.chat` applied to the parsed body `raw`:

```python
message = raw.get("message", {})
if not isinstance(message, dict):
    raise TypeError("message is not an object")
text = message.get("content", "") or ""
...
usage={"eval_count": raw.get("eval_count")}
``` -/
def OllamaAdapter.chat (cfg : LLMConfig) (messages : List ChatMessage)
    (raw : JVal) : Except LLMErr LLMResult :=
  match raw with
  | .obj fields =>
    match pyGet "message" fields with
    | none =>
      .ok { text := .s ""
            raw := .obj fields
            provider := "ollama"
            model := cfg.model
            usage := some (.obj [("eval_count", (pyGet "eval_count" fields).getD .null)]) }
    | some (.obj mf) =>
      .ok { text := pyOrEmptyStr ((pyGet "content" mf).getD (.s ""))
            raw := .obj fields
            provider := "ollama"
            model := cfg.model
            usage := some (.obj [("eval_count", (pyGet "eval_count" fields).getD .null)]) }
    | some _ =>
      .error (.generic "Ollama: unexpected response format: message is not an object")
  | _ => .error (.generic "ollama: expected JSON object")

/-!
## Client facade — `shared/llm/client.py`
-/

/-- The adapter table built in `LLM.__init__`:
`{"openai": OpenAIAdapter(), "anthropic": AnthropicAdapter(), "ollama": OllamaAdapter()}`. -/
def LLM.adapters :
    List (String × (LLMConfig → List ChatMessage → JVal → Except LLMErr LLMResult)) :=
  [("openai", OpenAIAdapter.chat),
   ("anthropic", AnthropicAdapter.chat),
   ("ollama", OllamaAdapter.chat)]

/-- `LLM.chat`: look up the adapter keyed by the configured provider; with
no match, raise `LLMError(f"Unsupported provider: {provider}")`; otherwise
delegate (the transport response is the explicit `raw` argument). -/
def LLM.chat (cfg : LLMConfig) (messages : List ChatMessage) (raw : JVal) :
    Except LLMErr LLMResult :=
  match LLM.adapters.lookup cfg.provider with
  | none => .error (.generic ("Unsupported provider: " ++ cfg.provider))
  | some adapter => adapter cfg messages raw

/-- The messages `LLM.extract_tags` sends. -/
def tagMessages (max_tags : Nat) (content : String) : List ChatMessage :=
  [{ role := "system"
     content := "Extract up to " ++ toString max_tags ++
       " relevant tags from the text. Return only the tags, one per line." },
   { role := "user", content := content }]

/-- `LLM.extract_tags(text, max_tags)` with the underlying `chat` call
abstracted as an oracle from the message list to the result's text:

```python
content = text[:MAX_CONTENT_LENGTH_FOR_TAGS]
result = self.chat(messages)
tags = [tag.strip() for tag in result.text.split('\x0a') if tag.strip()]
return tags[:max_tags]
``` -/
def extract_tags (chat : List ChatMessage → String) (text : String)
    (max_tags : Nat) : List String :=
  let content := text.take MAX_CONTENT_LENGTH_FOR_TAGS
  let resultText := chat (tagMessages max_tags content)
  ((((pySplitChar '\n' resultText).filter (fun tag => !(pyStrip tag == ""))).map
    (fun tag => pyStrip tag)).take max_tags)

/-!
## Theorems about the adapters and the facade
-/

/-- A concrete configuration used to evaluate the adapters on closed
inputs (both API keys set). -/
def cfgTest : LLMConfig :=
  { provider := "anthropic", model := "claude-3", temperature := 2 / 10,
    max_tokens := none, timeout_s := 60, max_retries := 3,
    openai_api_key := some "sk-test", openai_base_url := OPENAI_BASE_URL,
    anthropic_api_key := some "ak-test", anthropic_api_url := ANTHROPIC_BASE_URL,
    anthropic_version := ANTHROPIC_VERSION, ollama_base_url := OLLAMA_BASE_URL }

/-- Claim-side: the message list without its first system-role message. -/
def removeFirstSystem : List ChatMessage → List ChatMessage
  | [] => []
  | m :: rest => if m.role = "system" then rest else m :: removeFirstSystem rest

/-- Claim-side: content of the first system-role message, if any. -/
def firstSystemContent (ms : List ChatMessage) : Option String :=
  (ms.find? (fun m => m.role == "system")).map (fun m => m.content)

/-- Claim-side conversion: role `"user"` or `"assistant"` kept, any other
role coerced to `"user"`, content wrapped as a single text block. -/
def claimConvert (m : ChatMessage) : AnthMsg :=
  { role :=
      if m.role = "user" then "user"
      else if m.role = "assistant" then "assistant"
      else "user"
    content := [{ type := "text", text := m.content }] }

lemma splitSysAux_some (l : List ChatMessage) : ∀ (str : String) (acc : List ChatMessage),
    splitSysAux (some str) acc l = (some str, acc.reverse ++ l) := by
  induction l with
  | nil => intro str acc; simp [splitSysAux]
  | cons m rest ih =>
    intro str acc
    rw [splitSysAux, if_neg (by simp), ih str (m :: acc)]
    simp

lemma splitSysAux_none (l : List ChatMessage) : ∀ acc : List ChatMessage,
    splitSysAux none acc l = (firstSystemContent l, acc.reverse ++ removeFirstSystem l) := by
  induction l with
  | nil => intro acc; simp [splitSysAux, firstSystemContent, removeFirstSystem]
  | cons m rest ih =>
    intro acc
    by_cases hm : m.role = "system"
    · rw [splitSysAux, if_pos ⟨hm, rfl⟩, splitSysAux_some]
      simp [firstSystemContent, removeFirstSystem, List.find?_cons, hm]
    · rw [splitSysAux, if_neg (by simp [hm]), ih (m :: acc)]
      simp [firstSystemContent, removeFirstSystem, List.find?_cons, hm]

/-- `split_system_message` returns the first system message's content and
the rest of the list in order. -/
lemma split_system_message_eq (l : List ChatMessage) :
    split_system_message l = (firstSystemContent l, removeFirstSystem l) := by
  rw [split_system_message, splitSysAux_none l []]
  simp

lemma toAnthropicMessage_eq_claimConvert :
    toAnthropicMessage = claimConvert := by
  funext m
  rw [toAnthropicMessage, claimConvert]
  by_cases hu : m.role = "user"
  · simp [hu]
  · by_cases ha : m.role = "assistant" <;> simp [hu, ha]

/-- C3 (amended) — the Anthropic payload's `messages` excludes exactly the
first system-role message, converting the rest in order with unknown roles
coerced to `"user"` and content wrapped as text blocks; the payload carries
a `system` field equal to the first system message's content if and only if
a system message was present *and its content is non-empty* (the code's
`if system_prompt:` truthiness test drops an empty system prompt). -/
theorem anthropic_payload_messages_and_system (cfg : LLMConfig) (msgs : List ChatMessage) :
    (anthropicPayload cfg msgs).messages = (removeFirstSystem msgs).map claimConvert ∧
    ∀ c : String, ((anthropicPayload cfg msgs).system = some c ↔
      (firstSystemContent msgs = some c ∧ c ≠ "")) := by
  constructor
  · simp only [anthropicPayload, split_system_message_eq]
    rw [toAnthropicMessage_eq_claimConvert]
  · intro c
    simp only [anthropicPayload, split_system_message_eq]
    cases hfs : firstSystemContent msgs with
    | none => simp
    | some c0 =>
      by_cases h0 : c0 = ""
      · subst h0
        simp
        exact fun h => h.symm
      · simp [h0]
        intro h
        subst h
        exact h0

/-- C3 counterexample — a message list containing one system message with
empty content: a system message *is* present, yet the payload has no
`system` field, refuting the claim's "if and only if". -/
theorem anthropic_empty_system_counterexample :
    (anthropicPayload cfgTest [{ role := "system", content := "" }]).system = none ∧
    ({ role := "system", content := "" } : ChatMessage).role = "system" :=
  ⟨rfl, rfl⟩

/-- C4 — with a valid API key: (1) when the response's `content` is a list
whose pieces join cleanly, the result text is the concatenation (in order,
no separator) of the `text` field of every `type = "text"` block, trimmed
of surrounding whitespace; (2) a missing `content` key fails with a generic
error; (3) a non-list `content` fails with a generic error. -/
theorem anthropic_parse_concatenates_text_blocks :
    (∀ (cfg : LLMConfig) (key : String) (msgs : List ChatMessage)
        (fields : List (String × JVal)) (blocks : List JVal) (ts : List String),
      cfg.anthropic_api_key = some key → key ≠ "" →
      pyGet "content" fields = some (.arr blocks) →
      textPieces blocks = some ts →
      AnthropicAdapter.chat cfg msgs (.obj fields) =
        .ok { text := .s (pyStrip (String.join ts)), raw := .obj fields,
              provider := "anthropic", model := cfg.model,
              usage := pyGet "usage" fields }) ∧
    (∀ (cfg : LLMConfig) (key : String) (msgs : List ChatMessage)
        (fields : List (String × JVal)),
      cfg.anthropic_api_key = some key → key ≠ "" →
      pyGet "content" fields = none →
      AnthropicAdapter.chat cfg msgs (.obj fields) =
        .error (.generic "Anthropic: unexpected response format")) ∧
    (∀ (cfg : LLMConfig) (key : String) (msgs : List ChatMessage)
        (fields : List (String × JVal)) (v : JVal),
      cfg.anthropic_api_key = some key → key ≠ "" →
      pyGet "content" fields = some v → (∀ l, v ≠ .arr l) →
      AnthropicAdapter.chat cfg msgs (.obj fields) =
        .error (.generic "Anthropic: unexpected response format")) := by
  refine ⟨?_, ?_, ?_⟩
  · intro cfg key msgs fields blocks ts hkey hk hcontent hpieces
    simp [AnthropicAdapter.chat, require, hkey, hk, hcontent, hpieces]
  · intro cfg key msgs fields hkey hk hcontent
    simp [AnthropicAdapter.chat, require, hkey, hk, hcontent]
  · intro cfg key msgs fields v hkey hk hcontent hv
    cases v <;> simp_all [AnthropicAdapter.chat, require]

/-- Witness for C4: content blocks `a` and `b` concatenate to `"ab"`; a
body without `content` and a body whose `content` is a string both fail. -/
theorem anthropic_parse_concatenates_text_blocks_witness :
    AnthropicAdapter.chat cfgTest [{ role := "user", content := "hi" }]
        (.obj [("content", .arr
          [.obj [("type", .s "text"), ("text", .s "a")],
           .obj [("type", .s "text"), ("text", .s "b")]])]) =
      .ok { text := .s "ab",
            raw := .obj [("content", .arr
              [.obj [("type", .s "text"), ("text", .s "a")],
               .obj [("type", .s "text"), ("text", .s "b")]])],
            provider := "anthropic", model := "claude-3", usage := none } ∧
    AnthropicAdapter.chat cfgTest [] (.obj [("id", .s "x")]) =
      .error (.generic "Anthropic: unexpected response format") ∧
    AnthropicAdapter.chat cfgTest [] (.obj [("content", .s "oops")]) =
      .error (.generic "Anthropic: unexpected response format") := by
  refine ⟨?_, ?_, ?_⟩
  · have h := anthropic_parse_concatenates_text_blocks.1 cfgTest "ak-test"
      [{ role := "user", content := "hi" }]
      [("content", .arr
        [.obj [("type", .s "text"), ("text", .s "a")],
         .obj [("type", .s "text"), ("text", .s "b")]])]
      [.obj [("type", .s "text"), ("text", .s "a")],
       .obj [("type", .s "text"), ("text", .s "b")]]
      ["a", "b"] rfl (by decide) rfl rfl
    rw [h]
    rfl
  · exact anthropic_parse_concatenates_text_blocks.2.1 cfgTest "ak-test" []
      [("id", .s "x")] rfl (by decide) rfl
  · exact anthropic_parse_concatenates_text_blocks.2.2 cfgTest "ak-test" []
      [("content", .s "oops")] (.s "oops") rfl (by decide) rfl
      (fun l h => by cases h)

/-- C5 — the Ollama adapter's lenient parse: a missing `message` key or a
`message` object without `content` yields the empty string (no error), but
a `message` that is present and not an object is a generic error. -/
theorem ollama_lenient_parse :
    (∀ (cfg : LLMConfig) (msgs : List ChatMessage) (fields : List (String × JVal)),
      pyGet "message" fields = none →
      OllamaAdapter.chat cfg msgs (.obj fields) =
        .ok { text := .s "", raw := .obj fields, provider := "ollama", model := cfg.model,
              usage := some (.obj [("eval_count", (pyGet "eval_count" fields).getD .null)]) }) ∧
    (∀ (cfg : LLMConfig) (msgs : List ChatMessage) (fields : List (String × JVal))
        (mf : List (String × JVal)),
      pyGet "message" fields = some (.obj mf) →
      pyGet "content" mf = none →
      OllamaAdapter.chat cfg msgs (.obj fields) =
        .ok { text := .s "", raw := .obj fields, provider := "ollama", model := cfg.model,
              usage := some (.obj [("eval_count", (pyGet "eval_count" fields).getD .null)]) }) ∧
    (∀ (cfg : LLMConfig) (msgs : List ChatMessage) (fields : List (String × JVal)) (v : JVal),
      pyGet "message" fields = some v → (∀ mf, v ≠ .obj mf) →
      OllamaAdapter.chat cfg msgs (.obj fields) =
        .error (.generic "Ollama: unexpected response format: message is not an object")) := by
  refine ⟨?_, ?_, ?_⟩
  · intro cfg msgs fields hmsg
    simp [OllamaAdapter.chat, hmsg]
  · intro cfg msgs fields mf hmsg hcontent
    simp [OllamaAdapter.chat, hmsg, hcontent, pyOrEmptyStr, pyTruthy]
  · intro cfg msgs fields v hmsg hv
    cases v <;> simp_all [OllamaAdapter.chat]

/-- Witness for C5: `{}` body, `{message: {}}` body (no `content`), and
`{message: "not an object"}`. -/
theorem ollama_lenient_parse_witness :
    OllamaAdapter.chat cfgTest [] (.obj []) =
      .ok { text := .s "", raw := .obj [], provider := "ollama", model := "claude-3",
            usage := some (.obj [("eval_count", JVal.null)]) } ∧
    OllamaAdapter.chat cfgTest [] (.obj [("message", .obj [])]) =
      .ok { text := .s "", raw := .obj [("message", .obj [])], provider := "ollama",
            model := "claude-3", usage := some (.obj [("eval_count", JVal.null)]) } ∧
    OllamaAdapter.chat cfgTest [] (.obj [("message", .s "not an object")]) =
      .error (.generic "Ollama: unexpected response format: message is not an object") := by
  refine ⟨?_, ?_, ?_⟩
  · have h := ollama_lenient_parse.1 cfgTest [] [] rfl
    rw [h]
    rfl
  · have h := ollama_lenient_parse.2.1 cfgTest [] [("message", .obj [])] [] rfl rfl
    rw [h]
    rfl
  · exact ollama_lenient_parse.2.2 cfgTest [] [("message", .s "not an object")]
      (.s "not an object") rfl (fun mf h => by cases h)

/-- The `text` of a successful chat result (`none` when the call failed). -/
def resultText : Except LLMErr LLMResult → Option JVal
  | .ok r => some r.text
  | .error _ => none

/-- `raw["choices"][0]["message"]["content"]` viewed from the whole body. -/
def openaiExtractJ : JVal → Option JVal
  | .obj fields => openaiExtract fields
  | _ => none

/-- `raw["message"]["content"]` viewed from the whole body (`none` when the
path is absent or ill-typed). -/
def ollamaContentJ : JVal → Option JVal
  | .obj fields =>
    match pyGet "message" fields with
    | some (.obj mf) => pyGet "content" mf
    | _ => none
  | _ => none

lemma pyOrEmptyStr_str (str : String) : ∃ t, pyOrEmptyStr (.s str) = .s t := by
  by_cases h : str = ""
  · exact ⟨"", by simp [pyOrEmptyStr, pyTruthy, h]⟩
  · exact ⟨str, by simp [pyOrEmptyStr, pyTruthy, h]⟩

/-- C6 (amended) — the Anthropic adapter's result text is always a string;
the OpenAI and Ollama adapters guarantee a string text only when the
response's content value is itself a string (or, for Ollama, absent or
null): a non-string content value is passed through into `text`
unvalidated. -/
theorem adapters_text_always_string_amended :
    (∀ (cfg : LLMConfig) (msgs : List ChatMessage) (raw : JVal) (r : LLMResult),
      AnthropicAdapter.chat cfg msgs raw = .ok r → ∃ str, r.text = .s str) ∧
    (∀ (cfg : LLMConfig) (msgs : List ChatMessage) (raw : JVal) (r : LLMResult)
        (str : String),
      OpenAIAdapter.chat cfg msgs raw = .ok r →
      openaiExtractJ raw = some (.s str) → r.text = .s str) ∧
    (∀ (cfg : LLMConfig) (msgs : List ChatMessage) (raw : JVal) (r : LLMResult),
      OllamaAdapter.chat cfg msgs raw = .ok r →
      (ollamaContentJ raw = none ∨ ollamaContentJ raw = some .null ∨
        ∃ str, ollamaContentJ raw = some (.s str)) →
      ∃ str, r.text = .s str) := by
  refine ⟨?_, ?_, ?_⟩
  · intro cfg msgs raw r h
    unfold AnthropicAdapter.chat at h
    repeat' split at h
    all_goals try simp at h
    cases h
    exact ⟨_, rfl⟩
  · intro cfg msgs raw r str h hx
    unfold OpenAIAdapter.chat at h
    repeat' split at h
    all_goals simp_all [openaiExtractJ]
    rw [← h]
  · intro cfg msgs raw r h hx
    unfold OllamaAdapter.chat at h
    repeat' split at h
    all_goals try simp at h
    all_goals cases h
    all_goals try exact ⟨"", rfl⟩
    simp_all only [ollamaContentJ]
    rcases hx with hx | hx | ⟨str, hx⟩
    · rw [hx]; exact ⟨"", rfl⟩
    · rw [hx]; exact ⟨"", rfl⟩
    · rw [hx]; exact pyOrEmptyStr_str str

/-- C6 counterexample — the OpenAI adapter accepts
`{"choices": [{"message": {"content": null}}]}` without error and returns a
result whose `text` is `null`, not a string. -/
theorem openai_null_content_counterexample :
    resultText (OpenAIAdapter.chat cfgTest [{ role := "user", content := "hi" }]
        (.obj [("choices", .arr [.obj [("message", .obj [("content", JVal.null)])]])])) =
      some JVal.null := rfl

/-- Witness for C6 at concrete accepted responses of each adapter. -/
theorem adapters_text_always_string_amended_witness :
    (∃ str, ({ text := .s "", raw := .obj [("content", .arr ([] : List JVal))],
               provider := "anthropic", model := cfgTest.model,
               usage := none } : LLMResult).text = .s str) ∧
    ({ text := .s "hi", raw := .obj [("choices", .arr [.obj [("message",
          .obj [("content", .s "hi")])]])], provider := "openai",
       model := cfgTest.model, usage := none } : LLMResult).text = .s "hi" ∧
    (∃ str, ({ text := .s "", raw := .obj [("message", .obj ([] : List (String × JVal)))],
               provider := "ollama", model := cfgTest.model,
               usage := some (.obj [("eval_count", JVal.null)]) } : LLMResult).text = .s str) :=
  ⟨adapters_text_always_string_amended.1 cfgTest [] (.obj [("content", .arr [])]) _ rfl,
   adapters_text_always_string_amended.2.1 cfgTest []
     (.obj [("choices", .arr [.obj [("message", .obj [("content", .s "hi")])]])]) _ "hi" rfl rfl,
   adapters_text_always_string_amended.2.2 cfgTest [] (.obj [("message", .obj [])]) _ rfl
     (Or.inl rfl)⟩

/-- Claim-side tag parsing: split the model's response on newlines, trim
each line, drop empty lines, and take at most the first `maxTags`. -/
def specTags (respText : String) (maxTags : Nat) : List String :=
  (((pySplitChar '\n' respText).map (fun tag => pyStrip tag)).filter
    (fun t => !(t == ""))).take maxTags

lemma filter_strip_map_comm (l : List String) :
    (l.filter (fun tag => !(pyStrip tag == ""))).map (fun tag => pyStrip tag) =
      (l.map (fun tag => pyStrip tag)).filter (fun t => !(t == "")) := by
  induction l with
  | nil => rfl
  | cons a l ih =>
    by_cases h : pyStrip a = ""
    · simp [List.filter_cons, h, ih]
    · simp [List.filter_cons, h, ih]

/-- C7 — `extract_tags` splits the chat result's text on newlines, trims
each line, drops blank lines, and returns at most the first `max_tags`
entries, whatever the model returned; in particular 6 newline-separated
tags with `max_tags = 3` yield exactly the first 3, trimmed. -/
theorem extract_tags_first_trimmed_nonempty_lines :
    (∀ (chat : List ChatMessage → String) (text : String) (max_tags : Nat),
      extract_tags chat text max_tags =
        specTags (chat (tagMessages max_tags (text.take MAX_CONTENT_LENGTH_FOR_TAGS)))
          max_tags) ∧
    extract_tags (fun _ => " tag one \ntag2\n\ntag3\ntag4\ntag5\ntag6") "doc" 3 =
      ["tag one", "tag2", "tag3"] := by
  constructor
  · intro chat text max_tags
    simp only [extract_tags, specTags]
    rw [filter_strip_map_comm]
  · rfl

lemma pyLower_fixed_of_supported (p : String)
    (h : p = "openai" ∨ p = "anthropic" ∨ p = "ollama") :
    pyLower p = p := by
  rcases h with h | h | h <;> subst h <;> rfl

/-- C8 — `LLMConfig.from_env` round-trips: supplied environment values come
back field for field (with the numeric strings parsed), and a fully unset
environment yields the documented defaults (provider `"ollama"`, model
`"llama3"`, temperature `0.2`, no max-tokens, timeout 60 s, 3 retries, the
three documented base URLs and the `2023-06-01` Anthropic version). -/
theorem config_from_env_roundtrip :
    (∀ (p m ts mts tos rs okey obu akey au av olu : String) (t : Rat) (mt ti r : Int),
      (p = "openai" ∨ p = "anthropic" ∨ p = "ollama") →
      pyFloat ts = some t → mts ≠ "" → pyInt mts = some mt →
      pyInt tos = some ti → pyInt rs = some r →
      LLMConfig.from_env ⟨some p, some m, some ts, some mts, some tos, some rs,
          some okey, some obu, some akey, some au, some av, some olu⟩ =
        .ok ⟨p, m, t, some mt, ti, r, some okey, obu, some akey, au, av, olu⟩) ∧
    LLMConfig.from_env ⟨none, none, none, none, none, none, none, none, none, none,
        none, none⟩ =
      .ok ⟨DEFAULT_PROVIDER, DEFAULT_MODEL, DEFAULT_TEMPERATURE, none, DEFAULT_TIMEOUT_S,
           DEFAULT_MAX_RETRIES, none, OPENAI_BASE_URL, none, ANTHROPIC_BASE_URL,
           ANTHROPIC_VERSION, OLLAMA_BASE_URL⟩ := by
  constructor
  · intro p m ts mts tos rs okey obu akey au av olu t mt ti r hp hts hmts hmt htos hrs
    simp only [LLMConfig.from_env, Option.getD_some]
    rw [pyLower_fixed_of_supported p hp, if_pos hp]
    simp [pyMaxTokens, hts, hmts, hmt, htos, hrs]
  · rw [show LLMConfig.from_env ⟨none, none, none, none, none, none, none, none, none,
        none, none, none⟩ =
        Except.ok ⟨"ollama", "llama3", 0 + 2 / 10 ^ (1 : Nat), none, 60, 3, none,
          OPENAI_BASE_URL, none, ANTHROPIC_BASE_URL, ANTHROPIC_VERSION,
          OLLAMA_BASE_URL⟩ from rfl]
    simp only [DEFAULT_PROVIDER, DEFAULT_MODEL, DEFAULT_TEMPERATURE, DEFAULT_TIMEOUT_S,
      DEFAULT_MAX_RETRIES, Except.ok.injEq, LLMConfig.mk.injEq]
    norm_num

/-- Witness for C8: a fully populated environment for the OpenAI provider. -/
theorem config_from_env_roundtrip_witness :
    LLMConfig.from_env ⟨some "openai", some "gpt-4o-mini", some "0.7", some "256",
        some "30", some "5", some "sk", some "https://o", some "ak", some "https://a",
        some "2024-01-01", some "http://l"⟩ =
      .ok ⟨"openai", "gpt-4o-mini", 7 / 10, some 256, 30, 5, some "sk", "https://o",
           some "ak", "https://a", "2024-01-01", "http://l"⟩ := by
  have hts : pyFloat "0.7" = some (7 / 10) := by
    have h0 : pyFloat "0.7" = some (0 + 7 / 10 ^ (1 : Nat)) := rfl
    rw [h0]
    norm_num
  have h := config_from_env_roundtrip.1 "openai" "gpt-4o-mini" "0.7" "256" "30" "5"
    "sk" "https://o" "ak" "https://a" "2024-01-01" "http://l" (7 / 10) 256 30 5
    (Or.inl rfl) hts (by decide) rfl rfl rfl
  exact h

/-- C10 — any configuration built by `from_env` carries one of the three
supported provider names, and the facade's adapter table has exactly those
three keys, so `LLM.chat`'s unsupported-provider branch can never fire on
such a configuration: the adapter lookup always succeeds. -/
theorem facade_provider_always_dispatchable :
    (∀ (e : Env) (cfg : LLMConfig), LLMConfig.from_env e = .ok cfg →
      (cfg.provider = "openai" ∨ cfg.provider = "anthropic" ∨ cfg.provider = "ollama") ∧
      (LLM.adapters.lookup cfg.provider).isSome = true) ∧
    LLM.adapters.map Prod.fst = ["openai", "anthropic", "ollama"] := by
  constructor
  · intro e cfg h
    simp only [LLMConfig.from_env] at h
    by_cases hc : pyLower (e.LLM_PROVIDER.getD DEFAULT_PROVIDER) = "openai" ∨
        pyLower (e.LLM_PROVIDER.getD DEFAULT_PROVIDER) = "anthropic" ∨
        pyLower (e.LLM_PROVIDER.getD DEFAULT_PROVIDER) = "ollama"
    · rw [if_pos hc] at h
      repeat' split at h
      all_goals try simp at h
      subst h
      refine ⟨hc, ?_⟩
      rcases hc with hc | hc | hc <;> simp_all [LLM.adapters, List.lookup]
    · rw [if_neg hc] at h
      simp at h
  · rfl

/-- Witness for C10: the all-defaults environment dispatches to the
`"ollama"` adapter. -/
theorem facade_provider_always_dispatchable_witness :
    ("ollama" = "openai" ∨ "ollama" = "anthropic" ∨ "ollama" = "ollama") ∧
      (LLM.adapters.lookup "ollama").isSome = true :=
  facade_provider_always_dispatchable.1
    ⟨none, none, none, none, none, none, none, none, none, none, none, none⟩
    ⟨"ollama", "llama3", 0 + 2 / 10 ^ (1 : Nat), none, 60, 3, none, OPENAI_BASE_URL, none,
     ANTHROPIC_BASE_URL, ANTHROPIC_VERSION, OLLAMA_BASE_URL⟩ rfl

end Cookbook
